import Mathlib

/-!
Verification of the OBS render-delay control shim (`server.js`, two near-duplicate
variants). The program is an Express HTTP server that reads and writes the
"Render Delay" filter setting of a fixed list of OBS sources over one
obs-websocket connection. We embed the request handlers and helpers as pure
Lean functions; the single remote connection (`obs.call`) is passed in
explicitly as an oracle function, and each mutation handler additionally
returns the list of remote write calls it issued, so that "the remote write is
invoked exactly once with these arguments" is a provable statement.
-/

/-- A JavaScript value as it can appear in a parsed request body
(`req.body.cameraName`, `req.body.delay`, ...). Reading an absent property
yields `undef`, exactly as property access on a JS object does. -/
inductive JSValue where
  | undef
  | null
  | bool (b : Bool)
  | num (x : Int)
  | str (s : String)
deriving DecidableEq, Repr

/-- A JavaScript number restricted to the values produced in this program:
an integer or NaN. -/
inductive JSNum where
  | nan
  | val (x : Int)
deriving DecidableEq, Repr

/-- JavaScript truthiness, as tested by `!cameraName` in the mutation
handlers: `undefined`, `null`, `false`, `0` and `""` are falsy. -/
def truthy : JSValue → Bool
  | .undef => false
  | .null => false
  | .bool b => b
  | .num x => x != 0
  | .str s => s != ""

/-- Nat value of a list of decimal digit characters. -/
def digitsVal (l : List Char) : Nat :=
  l.foldl (fun n c => 10 * n + (c.toNat - 48)) 0

/-- Model of the ECMAScript ToNumber conversion on strings, restricted to
integer-valued inputs: the empty string converts to 0, an optionally negated
all-digit string to its decimal value, and any other string to NaN. -/
def strToNumber (s : String) : JSNum :=
  match s.data with
  | [] => .val 0
  | '-' :: c :: cs =>
      if (c :: cs).all Char.isDigit then .val (-(digitsVal (c :: cs))) else .nan
  | l =>
      if l.all Char.isDigit then .val (digitsVal l) else .nan

/-- Model of the ECMAScript ToNumber conversion (the `Number(x)` builtin used
in `Number(delay)` / `Number(newDelay)`): `undefined` and non-numeric strings
convert to NaN, `null` and `false` convert to `0`, `true` to `1`, a number
converts to itself, and a string via `strToNumber`. -/
def toNumber : JSValue → JSNum
  | .undef => .nan
  | .null => .val 0
  | .bool true => .val 1
  | .bool false => .val 0
  | .num x => .val x
  | .str s => strToNumber s

/-! ## Configuration constants (`server.js` lines 8-30) -/

/-- HTTP listen port of variant A (`src/server.js`). -/
def port : Nat := 7700

/-- The OBS machine address. -/
def OBS_HOST : String := "ws://strih.lan:4456"

/-- The obs-websocket password (blank). -/
def OBS_PASSWORD : String := ""

/-- The filter name (Render Delay). -/
def FILTER_NAME : String := "Render Delay"

/-- The camera source names. -/
def cameraSources : List String :=
  ["01 input", "02 input", "03 input", "04 input",
   "05 input", "06 input", "07 input", "08 input"]

/-! ## Startup connection (`server.js` lines 36-42) -/

/-- Outcome of the startup `obs.connect(...).then(...).catch(...)` chain: both
branches only log, so the process continues in either case; a failed attempt
leaves it running with a disconnected transport. -/
inductive ConnectOutcome where
  | connected
  | degraded (err : String)
deriving DecidableEq, Repr

/-- `obs.connect(OBS_HOST, OBS_PASSWORD).then(log).catch(log)`: the connection
result is consumed entirely by logging; a failure yields a degraded (but
running) process, never a crash. -/
def startupConnect : Except String Unit → ConnectOutcome
  | .ok _ => .connected
  | .error e => .degraded e

/-! ## Aggregation service: `fetchCameraDelays` (`server.js` lines 211-228) -/

/-- One reading `{ cameraName, delay }` as produced by `fetchCameraDelays`. -/
structure DelayReading where
  cameraName : String
  delay : Int
deriving DecidableEq, Repr

/-- The per-source async task inside `fetchCameraDelays`: calls
`obs.call("GetSourceFilter", { sourceName: cameraName, filterName: FILTER_NAME })`
(modelled by the oracle, returning `resp.filterSettings.delay_ms` on success)
and catches any failure into the sentinel delay `-1`. -/
def fetchOne (oracle : String → Except String Int) (cameraName : String) : DelayReading :=
  match oracle cameraName with
  | .ok delay => ⟨cameraName, delay⟩
  | .error _ => ⟨cameraName, -1⟩

/-- `fetchCameraDelays`: maps the per-source task over the source list and
joins with `Promise.all`, which keeps the input order. Each task catches its
own error, so the returned promise always resolves: the function is total. -/
def fetchCameraDelays (oracle : String → Except String Int)
    (sources : List String) : List DelayReading :=
  sources.map (fetchOne oracle)

/-- `Promise.all` run under an explicit completion schedule: the tasks are
indexed slots, initially unresolved; each element of `sched` is the index of
the task that settles next, writing its (already determined) result into its
own slot. The aggregate resolves once every task has settled. -/
def promiseAll (tasks : List α) (sched : List Nat) : List (Option α) :=
  sched.foldl (fun slots i => slots.set i tasks[i]?) (List.replicate tasks.length none)

/-- `fetchCameraDelays` run under an explicit completion schedule for its
per-source tasks. -/
def fetchCameraDelaysRun (oracle : String → Except String Int)
    (sources : List String) (sched : List Nat) : List (Option DelayReading) :=
  promiseAll (sources.map (fetchOne oracle)) sched

/-! ## Presentation: `buildCameraCell` (`server.js` lines 139-154) -/

/-- The HTML template of one camera cell, with its three interpolation slots
(`cameraName` twice, `displayDelay`, and the form's pre-filled value). -/
def cellHtml (cameraName displayDelay : String) (formValue : Int) : String :=
  "\n    <h3>" ++ cameraName ++ "</h3>\n    <p><strong>Current Delay:</strong> "
    ++ displayDelay
    ++ "</p>\n    <form action=\"/update-delay\" method=\"POST\">\n      <input type=\"hidden\" name=\"cameraName\" value=\""
    ++ cameraName
    ++ "\" />\n      <label>New Delay (ms): \n        <input type=\"number\" name=\"newDelay\" value=\""
    ++ toString formValue
    ++ "\" style=\"width:80px;\" />\n      </label>\n      <button type=\"submit\">Update</button>\n    </form>\n  "

/-- `buildCameraCell({ cameraName, delay })`: renders the delay as
`"<delay> ms"` when it is non-negative and `"(Error)"` otherwise, and
pre-fills the form input with the delay, or `0` when it is negative. -/
def buildCameraCell (c : DelayReading) : String :=
  let displayDelay := if c.delay ≥ 0 then toString c.delay ++ " ms" else "(Error)"
  cellHtml c.cameraName displayDelay (if c.delay ≥ 0 then c.delay else 0)

/-! ## Presentation: the row loop of `GET /` (`server.js` lines 57-71) -/

/-- The HTML template of one table row with its two column slots. -/
def rowHtml (col1 col2 : String) : String :=
  "\n        <tr>\n          <td>" ++ col1 ++ "</td>\n          <td>" ++ col2
    ++ "</td>\n        </tr>\n      "

/-- The column contents built by the `for (let i = 0; i < n; i += 2)` loop:
each iteration takes `cam1 = cameraDelays[i]` and `cam2 = cameraDelays[i+1]`
and renders `cam ? buildCameraCell(cam) : ""` for each column, so an odd
trailing reading gets an empty second column. -/
def buildRowCols : List DelayReading → List (String × String)
  | [] => []
  | [cam1] => [(buildCameraCell cam1, "")]
  | cam1 :: cam2 :: rest => (buildCameraCell cam1, buildCameraCell cam2) :: buildRowCols rest

/-- The `tableRows` string accumulated by the loop of `GET /`. -/
def tableRows (cameraDelays : List DelayReading) : String :=
  String.join ((buildRowCols cameraDelays).map fun p => rowHtml p.1 p.2)

/-! ## `GET /api/cameras` (`server.js` lines 159-167) -/

/-- Response of `GET /api/cameras`: a 200 JSON array of readings, or the 500
error payload of the `catch` branch. -/
inductive ApiGetResponse where
  | okJson (readings : List DelayReading)
  | serverError (error : String)
deriving DecidableEq, Repr

/-- HTTP status code of an `ApiGetResponse`. -/
def apiGetStatus : ApiGetResponse → Nat
  | .okJson _ => 200
  | .serverError _ => 500

/-- The `GET /api/cameras` handler: awaits `fetchCameraDelays()` and sends it
as JSON. In the model `fetchCameraDelays` is total (every per-source failure
is caught inside it), so the handler's `catch` branch is unreachable and the
response is always the 200 JSON list. -/
def getApiCameras (oracle : String → Except String Int)
    (sources : List String) : ApiGetResponse :=
  .okJson (fetchCameraDelays oracle sources)

/-! ## Mutation service: `setRenderDelay` (`server.js` lines 234-243) -/

/-- The argument record of one
`obs.call("SetSourceFilterSettings", { sourceName, filterName, filterSettings: { delay_ms } })`
remote write. The source name is forwarded as the JS value taken from the
request body. -/
structure SetCall where
  sourceName : JSValue
  filterName : String
  delay_ms : JSNum
deriving DecidableEq, Repr

/-- `setRenderDelay(cameraName, delayMs)`: issues exactly one
`SetSourceFilterSettings` remote write (modelled by the oracle) with the
given source name, the fixed `FILTER_NAME`, and `delay_ms` set to `delayMs`.
Returns the remote outcome together with the list of issued calls. -/
def setRenderDelay (oracle : SetCall → Except String Unit)
    (cameraName : JSValue) (delayMs : JSNum) : Except String Unit × List SetCall :=
  let call : SetCall := ⟨cameraName, FILTER_NAME, delayMs⟩
  (oracle call, [call])

/-! ## `POST /api/cameras` (`server.js` lines 172-186) -/

/-- Body of `POST /api/cameras`; an absent property reads as `undef`. -/
structure ApiBody where
  cameraName : JSValue
  delay : JSValue
deriving DecidableEq, Repr

/-- Response of `POST /api/cameras`: 400 `{error}`, 200
`{success: true, cameraName, delay}` echoing the request values, or 500
`{error}`. -/
inductive ApiPostResponse where
  | badRequest (error : String)
  | ok (cameraName delay : JSValue)
  | serverError (error : String)
deriving DecidableEq, Repr

/-- HTTP status code of an `ApiPostResponse`. -/
def apiPostStatus : ApiPostResponse → Nat
  | .badRequest _ => 400
  | .ok _ _ => 200
  | .serverError _ => 500

/-- The `POST /api/cameras` handler: rejects with 400 when `!cameraName` (JS
truthiness) or `delay === undefined`; otherwise calls
`setRenderDelay(cameraName, Number(delay))` and echoes
`{success: true, cameraName, delay}` on success or sends a 500 payload on
remote failure. Returns the response together with the issued remote writes. -/
def postApiCameras (oracle : SetCall → Except String Unit)
    (b : ApiBody) : ApiPostResponse × List SetCall :=
  if truthy b.cameraName = false ∨ b.delay = JSValue.undef then
    (.badRequest "Missing cameraName or delay.", [])
  else
    let r := setRenderDelay oracle b.cameraName (toNumber b.delay)
    match r.1 with
    | .ok _ => (.ok b.cameraName b.delay, r.2)
    | .error _ => (.serverError "Failed to set camera delay.", r.2)

/-! ## `POST /update-delay` (`server.js` lines 191-205) -/

/-- Body of `POST /update-delay`; an absent property reads as `undef`. -/
structure UpdateBody where
  cameraName : JSValue
  newDelay : JSValue
deriving DecidableEq, Repr

/-- Response of `POST /update-delay`: 400 plain text, 302 redirect to `/`, or
500 plain text. -/
inductive UpdateResponse where
  | badRequest (msg : String)
  | redirect (location : String)
  | serverError (msg : String)
deriving DecidableEq, Repr

/-- HTTP status code of an `UpdateResponse`. -/
def updateStatus : UpdateResponse → Nat
  | .badRequest _ => 400
  | .redirect _ => 302
  | .serverError _ => 500

/-- The `POST /update-delay` handler: same validation as `POST /api/cameras`
on `cameraName`/`newDelay`, then `setRenderDelay(cameraName, Number(newDelay))`
and a redirect to `/` on success. -/
def postUpdateDelay (oracle : SetCall → Except String Unit)
    (b : UpdateBody) : UpdateResponse × List SetCall :=
  if truthy b.cameraName = false ∨ b.newDelay = JSValue.undef then
    (.badRequest "Missing cameraName or newDelay.", [])
  else
    let r := setRenderDelay oracle b.cameraName (toNumber b.newDelay)
    match r.1 with
    | .ok _ => (.redirect "/", r.2)
    | .error _ => (.serverError "Failed to set camera delay.", r.2)

/-! ## Concrete oracles used in scenario claims -/

/-- The read oracle of the spec's three-source scenario: `"02 input"` fails,
`"01 input"` reads 120, `"03 input"` reads 80. -/
def scenarioOracle : String → Except String Int := fun name =>
  if name = "02 input" then .error "Could not get filter"
  else if name = "01 input" then .ok 120
  else .ok 80

/-- The read oracle of a process whose startup connection failed: every
remote call fails on the disconnected transport. -/
def disconnectedOracle : String → Except String Int :=
  fun _ => .error "Not connected"

/-! ## Variant B (`src/unnamed/part_000`): the second near-duplicate file

The second file differs from `src/server.js` in its listen port (3000 instead
of 7700) and in the HTML/CSS shell of the `GET /` page (title text and style
rules); every function below is its own transcription from that file. -/

/-- HTTP listen port of variant B. -/
def portB : Nat := 3000

/-- The filter name of variant B. -/
def FILTER_NAMEB : String := "Render Delay"

/-- The camera source names of variant B. -/
def cameraSourcesB : List String :=
  ["01 input", "02 input", "03 input", "04 input",
   "05 input", "06 input", "07 input", "08 input"]

/-- Variant B's per-source task inside its `fetchCameraDelays`. -/
def fetchOneB (oracle : String → Except String Int) (cameraName : String) : DelayReading :=
  match oracle cameraName with
  | .ok delay => ⟨cameraName, delay⟩
  | .error _ => ⟨cameraName, -1⟩

/-- Variant B's `fetchCameraDelays` (part_000 lines 192-209). -/
def fetchCameraDelaysB (oracle : String → Except String Int)
    (sources : List String) : List DelayReading :=
  sources.map (fetchOneB oracle)

/-- Variant B's camera-cell template (part_000 lines 124-134). -/
def cellHtmlB (cameraName displayDelay : String) (formValue : Int) : String :=
  "\n    <h3>" ++ cameraName ++ "</h3>\n    <p><strong>Current Delay:</strong> "
    ++ displayDelay
    ++ "</p>\n    <form action=\"/update-delay\" method=\"POST\">\n      <input type=\"hidden\" name=\"cameraName\" value=\""
    ++ cameraName
    ++ "\" />\n      <label>New Delay (ms): \n        <input type=\"number\" name=\"newDelay\" value=\""
    ++ toString formValue
    ++ "\" style=\"width:80px;\" />\n      </label>\n      <button type=\"submit\">Update</button>\n    </form>\n  "

/-- Variant B's `buildCameraCell` (part_000 lines 120-135). -/
def buildCameraCellB (c : DelayReading) : String :=
  let displayDelay := if c.delay ≥ 0 then toString c.delay ++ " ms" else "(Error)"
  cellHtmlB c.cameraName displayDelay (if c.delay ≥ 0 then c.delay else 0)

/-- Variant B's row template (part_000 lines 65-70). -/
def rowHtmlB (col1 col2 : String) : String :=
  "\n        <tr>\n          <td>" ++ col1 ++ "</td>\n          <td>" ++ col2
    ++ "</td>\n        </tr>\n      "

/-- Variant B's row loop (part_000 lines 57-71). -/
def buildRowColsB : List DelayReading → List (String × String)
  | [] => []
  | [cam1] => [(buildCameraCellB cam1, "")]
  | cam1 :: cam2 :: rest => (buildCameraCellB cam1, buildCameraCellB cam2) :: buildRowColsB rest

/-- Variant B's `tableRows` string. -/
def tableRowsB (cameraDelays : List DelayReading) : String :=
  String.join ((buildRowColsB cameraDelays).map fun p => rowHtmlB p.1 p.2)

/-- Variant B's `GET /api/cameras` handler (part_000 lines 140-148). -/
def getApiCamerasB (oracle : String → Except String Int)
    (sources : List String) : ApiGetResponse :=
  .okJson (fetchCameraDelaysB oracle sources)

/-- Variant B's `setRenderDelay` (part_000 lines 215-224). -/
def setRenderDelayB (oracle : SetCall → Except String Unit)
    (cameraName : JSValue) (delayMs : JSNum) : Except String Unit × List SetCall :=
  let call : SetCall := ⟨cameraName, FILTER_NAMEB, delayMs⟩
  (oracle call, [call])

/-- Variant B's `POST /api/cameras` handler (part_000 lines 153-167). -/
def postApiCamerasB (oracle : SetCall → Except String Unit)
    (b : ApiBody) : ApiPostResponse × List SetCall :=
  if truthy b.cameraName = false ∨ b.delay = JSValue.undef then
    (.badRequest "Missing cameraName or delay.", [])
  else
    let r := setRenderDelayB oracle b.cameraName (toNumber b.delay)
    match r.1 with
    | .ok _ => (.ok b.cameraName b.delay, r.2)
    | .error _ => (.serverError "Failed to set camera delay.", r.2)

/-- Variant B's `POST /update-delay` handler (part_000 lines 172-186). -/
def postUpdateDelayB (oracle : SetCall → Except String Unit)
    (b : UpdateBody) : UpdateResponse × List SetCall :=
  if truthy b.cameraName = false ∨ b.newDelay = JSValue.undef then
    (.badRequest "Missing cameraName or newDelay.", [])
  else
    let r := setRenderDelayB oracle b.cameraName (toNumber b.newDelay)
    match r.1 with
    | .ok _ => (.redirect "/", r.2)
    | .error _ => (.serverError "Failed to set camera delay.", r.2)
/-! ## Helper lemmas about scheduled joins -/

theorem foldl_set_length (f : Nat → α) (sched : List Nat) (slots : List α) :
    (sched.foldl (fun s i => s.set i (f i)) slots).length = slots.length := by
  induction sched generalizing slots with
  | nil => rfl
  | cons i rest ih => simp [List.foldl_cons, ih, List.length_set]

theorem foldl_set_getElem (f : Nat → α) (sched : List Nat) (slots : List α)
    (j : Nat) (hj : j < slots.length) :
    (sched.foldl (fun s i => s.set i (f i)) slots)[j]? =
      if j ∈ sched then some (f j) else slots[j]? := by
  induction sched generalizing slots with
  | nil => simp
  | cons i rest ih =>
    rw [List.foldl_cons, ih (slots.set i (f i)) (by simpa [List.length_set] using hj)]
    by_cases hmem : j ∈ rest
    · simp [hmem, List.mem_cons]
    · by_cases hij : i = j
      · subst hij
        simp [hmem, List.mem_cons, List.getElem?_set_eq_of_lt _ hj]
      · have hji : ¬ j = i := fun h => hij h.symm
        simp [hmem, List.mem_cons, hij, hji, List.getElem?_set_ne]

theorem promiseAll_complete (tasks : List α) (sched : List Nat)
    (h : ∀ j, j < tasks.length → j ∈ sched) :
    promiseAll tasks sched = tasks.map some := by
  apply List.ext_getElem?
  intro j
  by_cases hj : j < tasks.length
  · rw [promiseAll, foldl_set_getElem _ _ _ j (by simpa using hj)]
    simp [h j hj, List.getElem?_eq_getElem hj]
  · have h1 : (promiseAll tasks sched).length ≤ j := by
      rw [promiseAll, foldl_set_length]
      simpa using Nat.le_of_not_lt hj
    have h2 : (tasks.map some).length ≤ j := by
      simpa using Nat.le_of_not_lt hj
    rw [List.getElem?_eq_none h1, List.getElem?_eq_none h2]

theorem fetchOne_cameraName (oracle : String → Except String Int) (s : String) :
    (fetchOne oracle s).cameraName = s := by
  cases h : oracle s <;> simp [fetchOne, h]

/-! ## Claim theorems -/

/-- Claim C1: for every configured source list of length N, `fetchCameraDelays`
returns exactly N readings, one per source, in the input order, regardless of
the completion order of the per-source remote calls (any schedule in which
every task settles) and regardless of how many of them fail. -/
theorem fetchCameraDelays_ordered (oracle : String → Except String Int)
    (sources : List String) (sched : List Nat)
    (hsched : ∀ j, j < sources.length → j ∈ sched) :
    fetchCameraDelaysRun oracle sources sched = (fetchCameraDelays oracle sources).map some
    ∧ (fetchCameraDelays oracle sources).length = sources.length
    ∧ ∀ i : Nat, ((fetchCameraDelays oracle sources)[i]?).map DelayReading.cameraName = sources[i]? := by
  refine ⟨?_, ?_, ?_⟩
  · rw [fetchCameraDelaysRun, fetchCameraDelays]
    exact promiseAll_complete _ _ (by simpa using hsched)
  · simp [fetchCameraDelays]
  · intro i
    by_cases hi : i < sources.length
    · simp [fetchCameraDelays, List.getElem?_eq_getElem hi,
        List.getElem?_map, fetchOne_cameraName]
    · have h1 : sources.length ≤ i := Nat.le_of_not_lt hi
      rw [fetchCameraDelays, List.getElem?_eq_none (by simpa using h1),
        List.getElem?_eq_none h1]
      rfl

/-- Claim C1 witness: concrete instantiation with three sources and an
out-of-order completion schedule in which the second source fails. -/
theorem fetchCameraDelays_ordered_witness :
    fetchCameraDelaysRun
        (fun n => if n = "02 input" then .error "boom" else .ok 5)
        ["01 input", "02 input", "03 input"] [2, 0, 1]
      = (fetchCameraDelays
          (fun n => if n = "02 input" then .error "boom" else .ok 5)
          ["01 input", "02 input", "03 input"]).map some
    ∧ (fetchCameraDelays
          (fun n => if n = "02 input" then .error "boom" else .ok 5)
          ["01 input", "02 input", "03 input"]).length = 3
    ∧ ∀ i : Nat, ((fetchCameraDelays
          (fun n => if n = "02 input" then .error "boom" else .ok 5)
          ["01 input", "02 input", "03 input"])[i]?).map DelayReading.cameraName
        = ["01 input", "02 input", "03 input"][i]? :=
  fetchCameraDelays_ordered _ _ _ (by decide)


/-! ## Helper lemmas about the mutation handlers -/

theorem postApi_call_list (oracle : SetCall → Except String Unit) (b : ApiBody)
    (h : ¬ (truthy b.cameraName = false ∨ b.delay = JSValue.undef)) :
    (postApiCameras oracle b).2 = [⟨b.cameraName, FILTER_NAME, toNumber b.delay⟩] := by
  unfold postApiCameras
  rw [if_neg h]
  cases hr : oracle ⟨b.cameraName, FILTER_NAME, toNumber b.delay⟩ <;>
    simp [setRenderDelay, hr]

theorem postApi_ok_echo (oracle : SetCall → Except String Unit) (b : ApiBody)
    (h : ¬ (truthy b.cameraName = false ∨ b.delay = JSValue.undef))
    (u : Unit) (hu : oracle ⟨b.cameraName, FILTER_NAME, toNumber b.delay⟩ = .ok u) :
    (postApiCameras oracle b).1 = .ok b.cameraName b.delay := by
  unfold postApiCameras
  rw [if_neg h]
  simp [setRenderDelay, hu]

theorem postApi_no_badRequest (oracle : SetCall → Except String Unit) (b : ApiBody)
    (h : ¬ (truthy b.cameraName = false ∨ b.delay = JSValue.undef)) (msg : String) :
    (postApiCameras oracle b).1 ≠ .badRequest msg := by
  unfold postApiCameras
  rw [if_neg h]
  cases hr : oracle ⟨b.cameraName, FILTER_NAME, toNumber b.delay⟩ <;>
    simp [setRenderDelay, hr]

theorem postUpdate_call_list (oracle : SetCall → Except String Unit) (b : UpdateBody)
    (h : ¬ (truthy b.cameraName = false ∨ b.newDelay = JSValue.undef)) :
    (postUpdateDelay oracle b).2 = [⟨b.cameraName, FILTER_NAME, toNumber b.newDelay⟩] := by
  unfold postUpdateDelay
  rw [if_neg h]
  cases hr : oracle ⟨b.cameraName, FILTER_NAME, toNumber b.newDelay⟩ <;>
    simp [setRenderDelay, hr]

theorem present_str_cond (name : String) (hname : name ≠ "") (d : JSValue)
    (hd : d ≠ JSValue.undef) :
    ¬ (truthy (JSValue.str name) = false ∨ d = JSValue.undef) := by
  simp [truthy, hname, hd]

/-! ## Claim C2 -/

/-- Claim C2: the aggregation never propagates a top-level error; a failed
per-source read yields the sentinel `-1` for that source while every
successfully read source keeps exactly its own value; concretely, for sources
`["01 input","02 input","03 input"]` with the read of `"02 input"` failing and
the others returning 120 and 80, the result is
`[{"01 input",120},{"02 input",-1},{"03 input",80}]`. -/
theorem fetchCameraDelays_failure_isolation (oracle : String → Except String Int)
    (sources : List String) (i : Nat) (s : String) (hs : sources[i]? = some s)
    (e : String) (he : oracle s = .error e) :
    (fetchCameraDelays oracle sources)[i]? = some ⟨s, -1⟩
    ∧ (∀ j : Nat, ∀ t v, sources[j]? = some t → oracle t = .ok v →
        (fetchCameraDelays oracle sources)[j]? = some ⟨t, v⟩)
    ∧ fetchCameraDelays scenarioOracle ["01 input", "02 input", "03 input"]
        = [⟨"01 input", 120⟩, ⟨"02 input", -1⟩, ⟨"03 input", 80⟩] := by
  refine ⟨?_, ?_, by decide⟩
  · simp [fetchCameraDelays, List.getElem?_map, hs, fetchOne, he]
  · intro j t v ht hv
    simp [fetchCameraDelays, List.getElem?_map, ht, fetchOne, hv]

/-- Claim C2 witness: the scenario instantiated concretely at the failing
source `"02 input"`. -/
theorem fetchCameraDelays_failure_isolation_witness :
    (fetchCameraDelays scenarioOracle ["01 input", "02 input", "03 input"])[1]?
      = some ⟨"02 input", -1⟩ :=
  (fetchCameraDelays_failure_isolation scenarioOracle
    ["01 input", "02 input", "03 input"] 1 "02 input" (by decide)
    "Could not get filter" rfl).1

/-! ## Claim C3 -/

/-- Claim C3: on either mutation route, a request with the source-name field
or the delay field absent gets a 400 response and the remote write is never
invoked. -/
theorem missingField_no_write (oracle : SetCall → Except String Unit)
    (b : ApiBody) (u : UpdateBody)
    (hb : b.cameraName = JSValue.undef ∨ b.delay = JSValue.undef)
    (hu : u.cameraName = JSValue.undef ∨ u.newDelay = JSValue.undef) :
    (postApiCameras oracle b = (.badRequest "Missing cameraName or delay.", [])
      ∧ apiPostStatus (postApiCameras oracle b).1 = 400)
    ∧ (postUpdateDelay oracle u = (.badRequest "Missing cameraName or newDelay.", [])
      ∧ updateStatus (postUpdateDelay oracle u).1 = 400) := by
  have h1 : postApiCameras oracle b = (.badRequest "Missing cameraName or delay.", []) := by
    rcases hb with h | h <;> simp [postApiCameras, h, truthy]
  have h2 : postUpdateDelay oracle u = (.badRequest "Missing cameraName or newDelay.", []) := by
    rcases hu with h | h <;> simp [postUpdateDelay, h, truthy]
  exact ⟨⟨h1, by rw [h1]; rfl⟩, ⟨h2, by rw [h2]; rfl⟩⟩

/-- Claim C3 witness: `POST /api/cameras` with no cameraName and
`POST /update-delay` with no newDelay are both rejected without any remote
write. -/
theorem missingField_no_write_witness :
    (postApiCameras (fun _ => .ok ()) ⟨JSValue.undef, JSValue.num 5⟩
        = (.badRequest "Missing cameraName or delay.", [])
      ∧ apiPostStatus (postApiCameras (fun _ => .ok ())
          ⟨JSValue.undef, JSValue.num 5⟩).1 = 400)
    ∧ (postUpdateDelay (fun _ => .ok ()) ⟨JSValue.str "01 input", JSValue.undef⟩
        = (.badRequest "Missing cameraName or newDelay.", [])
      ∧ updateStatus (postUpdateDelay (fun _ => .ok ())
          ⟨JSValue.str "01 input", JSValue.undef⟩).1 = 400) :=
  missingField_no_write _ _ _ (Or.inl rfl) (Or.inr rfl)

/-! ## Claim C6 -/

/-- Claim C6: a failed startup connection leaves the process running
(degraded, not crashed), and `GET /api/cameras` on the disconnected transport
still responds 200 with a full-length list in which every source's delay is
the sentinel `-1` — never a 500. -/
theorem startupFailure_degraded_reads (e : String) (sources : List String) :
    startupConnect (.error e) = .degraded e
    ∧ getApiCameras disconnectedOracle sources
        = .okJson (sources.map fun s => ⟨s, -1⟩)
    ∧ apiGetStatus (getApiCameras disconnectedOracle sources) = 200 := by
  refine ⟨rfl, ?_, rfl⟩
  simp [getApiCameras, fetchCameraDelays, fetchOne, disconnectedOracle]

/-! ## Claim C7 helper lemmas -/

theorem buildRowCols_length (ds : List DelayReading) :
    (buildRowCols ds).length = (ds.length + 1) / 2 := by
  induction ds using buildRowCols.induct with
  | case1 => simp [buildRowCols]
  | case2 cam1 => simp [buildRowCols]
  | case3 cam1 cam2 rest ih =>
      simp only [buildRowCols, List.length_cons, ih]
      omega

theorem buildRowCols_getElem (ds : List DelayReading) :
    ∀ i : Nat, (buildRowCols ds)[i]? = (ds[2*i]?).map fun cam1 =>
      (buildCameraCell cam1,
        match ds[2*i+1]? with
        | some cam2 => buildCameraCell cam2
        | none => "") := by
  induction ds using buildRowCols.induct with
  | case1 => intro i; simp [buildRowCols]
  | case2 cam1 =>
      intro i
      match i with
      | 0 => simp [buildRowCols]
      | i + 1 =>
          have h1 : (buildRowCols [cam1])[i+1]? = none :=
            List.getElem?_eq_none
              (by simp only [buildRowCols, List.length_cons, List.length_nil]; omega)
          have h2 : ([cam1] : List DelayReading)[2*(i+1)]? = none :=
            List.getElem?_eq_none
              (by simp only [List.length_cons, List.length_nil]; omega)
          rw [h1, h2]
          rfl
  | case3 cam1 cam2 rest ih =>
      intro i
      match i with
      | 0 => simp [buildRowCols]
      | i + 1 =>
          have e1 : (cam1 :: cam2 :: rest)[2*(i+1)]? = rest[2*i]? := by
            have h : 2*(i+1) = (2*i+1)+1 := by ring
            rw [h, List.getElem?_cons_succ, List.getElem?_cons_succ]
          have e2 : (cam1 :: cam2 :: rest)[2*(i+1)+1]? = rest[2*i+1]? := by
            have h : 2*(i+1)+1 = ((2*i+1)+1)+1 := by ring
            rw [h, List.getElem?_cons_succ, List.getElem?_cons_succ]
          simp only [buildRowCols, List.getElem?_cons_succ, e1, e2]
          exact ih i

/-! ## Claim C7 -/

/-- Claim C7: the list view pairs the readings two per row in configured
order: the row list has ⌈N/2⌉ rows, row i's first column is the cell of
reading 2i and its second column is the cell of reading 2i+1, or the empty
string when the list ends at an odd reading. -/
theorem listView_rows_pairing (delays : List DelayReading) (i : Nat) :
    (buildRowCols delays).length = (delays.length + 1) / 2
    ∧ (buildRowCols delays)[i]? = (delays[2*i]?).map fun cam1 =>
        (buildCameraCell cam1,
          match delays[2*i+1]? with
          | some cam2 => buildCameraCell cam2
          | none => "") :=
  ⟨buildRowCols_length delays, buildRowCols_getElem delays i⟩

/-! ## Claim C8 -/

/-- Claim C8: a rendered cell shows the delay as `"<n> ms"` when it is
non-negative and as `"(Error)"` when the sentinel is present, and the cell's
update form is pre-filled with the current delay, or with `0` for the
sentinel. -/
theorem cell_rendering (n : String) (d : Int) :
    (0 ≤ d → buildCameraCell ⟨n, d⟩ = cellHtml n (toString d ++ " ms") d)
    ∧ (d < 0 → buildCameraCell ⟨n, d⟩ = cellHtml n "(Error)" 0) := by
  constructor
  · intro h
    have h' : d ≥ 0 := h
    simp [buildCameraCell, h']
  · intro h
    have h' : ¬ (d ≥ 0) := by omega
    simp [buildCameraCell, h']

/-- Claim C8 witness: the sentinel reading renders as `"(Error)"` with a
zero-pre-filled form. -/
theorem cell_rendering_witness :
    buildCameraCell ⟨"01 input", -1⟩ = cellHtml "01 input" "(Error)" 0 :=
  (cell_rendering "01 input" (-1)).2 (by decide)

/-! ## Claim C9 helper lemmas -/

theorem buildCameraCellB_eq (c : DelayReading) : buildCameraCellB c = buildCameraCell c := rfl

theorem buildRowColsB_eq (ds : List DelayReading) : buildRowColsB ds = buildRowCols ds := by
  induction ds using buildRowColsB.induct with
  | case1 => simp [buildRowColsB, buildRowCols]
  | case2 cam1 => simp [buildRowColsB, buildRowCols, buildCameraCellB_eq]
  | case3 cam1 cam2 rest ih =>
      simp only [buildRowColsB, buildRowCols, buildCameraCellB_eq, ih]

theorem tableRowsB_eq (ds : List DelayReading) : tableRowsB ds = tableRows ds := by
  rw [tableRowsB, tableRows, buildRowColsB_eq]
  rfl

/-! ## Claim C9 -/

/-- Claim C9: the two near-duplicate source files implement the same core
program — aggregation, cell rendering, row building, both API handlers, the
form handler and the remote-write helper are extensionally equal, with the
same configured sources and filter name; the variants differ in the HTTP
listen port (7700 vs 3000), the remaining differences being the HTML/CSS
shell of the list page. -/
theorem variants_core_equal :
    (∀ oracle sources, fetchCameraDelaysB oracle sources = fetchCameraDelays oracle sources)
    ∧ (∀ c, buildCameraCellB c = buildCameraCell c)
    ∧ (∀ ds, tableRowsB ds = tableRows ds)
    ∧ (∀ oracle sources, getApiCamerasB oracle sources = getApiCameras oracle sources)
    ∧ (∀ oracle b, postApiCamerasB oracle b = postApiCameras oracle b)
    ∧ (∀ oracle b, postUpdateDelayB oracle b = postUpdateDelay oracle b)
    ∧ (∀ oracle n d, setRenderDelayB oracle n d = setRenderDelay oracle n d)
    ∧ cameraSourcesB = cameraSources
    ∧ FILTER_NAMEB = FILTER_NAME
    ∧ port = 7700 ∧ portB = 3000 :=
  ⟨fun _ _ => rfl, buildCameraCellB_eq, tableRowsB_eq, fun _ _ => rfl,
    fun _ _ => rfl, fun _ _ => rfl, fun _ _ _ => rfl, rfl, rfl, rfl, rfl⟩

/-! ## Claim C4 (corrected) -/

/-- Claim C4 counterexample: a `POST /api/cameras` request in which both
fields are present — the source-name field holding the (present) empty
string, the delay holding 7 — is answered 400 and issues no remote write,
refuting "present implies exactly one remote write with echo response". -/
theorem mutation_present_counterexample :
    (postApiCameras (fun _ => .ok ()) ⟨JSValue.str "", JSValue.num 7⟩).2 = []
    ∧ (postApiCameras (fun _ => .ok ()) ⟨JSValue.str "", JSValue.num 7⟩).1
        = .badRequest "Missing cameraName or delay."
    ∧ apiPostStatus (postApiCameras (fun _ => .ok ()) ⟨JSValue.str "", JSValue.num 7⟩).1
        = 400 := by
  refine ⟨rfl, rfl, rfl⟩

/-- Claim C4 (amended): for every mutation request whose source-name field is
present and truthy (e.g. a non-empty string) and whose delay value is
present, the service calls the remote write exactly once, with exactly that
source name and exactly that value — whatever the value's sign or magnitude,
with no clamping or modification — and on success `POST /api/cameras`
responds by echoing `{success: true, cameraName, delay}`. -/
theorem mutation_forwards_exactly (oracle : SetCall → Except String Unit)
    (name : String) (hname : name ≠ "") (d : Int) :
    (postApiCameras oracle ⟨.str name, .num d⟩).2
        = [⟨.str name, FILTER_NAME, .val d⟩]
    ∧ (∀ u : Unit, oracle ⟨.str name, FILTER_NAME, .val d⟩ = .ok u →
        (postApiCameras oracle ⟨.str name, .num d⟩).1 = .ok (.str name) (.num d))
    ∧ (postUpdateDelay oracle ⟨.str name, .num d⟩).2
        = [⟨.str name, FILTER_NAME, .val d⟩] := by
  have hcond := present_str_cond name hname (JSValue.num d) (by simp)
  refine ⟨?_, ?_, ?_⟩
  · simpa [toNumber] using postApi_call_list oracle ⟨.str name, .num d⟩ hcond
  · intro u hu
    exact postApi_ok_echo oracle ⟨.str name, .num d⟩ hcond u (by simpa [toNumber] using hu)
  · simpa [toNumber] using postUpdate_call_list oracle ⟨.str name, .num d⟩ hcond

/-- Claim C4 witness: a negative, large delay for a name outside the
configured list is forwarded unmodified and echoed. -/
theorem mutation_forwards_exactly_witness :
    ((postApiCameras (fun _ => .ok ()) ⟨.str "99 input", .num (-2500)⟩).2
        = [⟨.str "99 input", FILTER_NAME, .val (-2500)⟩]
    ∧ (∀ u : Unit, (fun _ => (.ok () : Except String Unit))
          (⟨.str "99 input", FILTER_NAME, .val (-2500)⟩ : SetCall) = .ok u →
        (postApiCameras (fun _ => .ok ()) ⟨.str "99 input", .num (-2500)⟩).1
          = .ok (.str "99 input") (.num (-2500)))
    ∧ (postUpdateDelay (fun _ => .ok ()) ⟨.str "99 input", .num (-2500)⟩).2
        = [⟨.str "99 input", FILTER_NAME, .val (-2500)⟩]) :=
  mutation_forwards_exactly (fun _ => .ok ()) "99 input" (by decide) (-2500)

/-! ## Claim C5 (corrected) -/

/-- Claim C5 counterexample: a request whose source-name field is present but
holds the empty string is rejected with 400 before any remote call, refuting
"the mutation service does not enforce that the supplied source name is
non-empty". -/
theorem emptyName_rejected_counterexample :
    (postApiCameras (fun _ => .ok ()) ⟨JSValue.str "", JSValue.num 5⟩).2 = []
    ∧ apiPostStatus (postApiCameras (fun _ => .ok ()) ⟨JSValue.str "", JSValue.num 5⟩).1
        = 400
    ∧ (postUpdateDelay (fun _ => .ok ()) ⟨JSValue.str "", JSValue.num 5⟩).2 = []
    ∧ updateStatus (postUpdateDelay (fun _ => .ok ()) ⟨JSValue.str "", JSValue.num 5⟩).1
        = 400 :=
  ⟨rfl, rfl, rfl, rfl⟩

/-- Claim C5 (amended): the mutation service does not enforce membership in
the configured source list — any non-empty source name, including one outside
the configured list, is forwarded as-is to the remote device with the
delay's numeric coercion rather than being rejected before the remote call —
but a present empty-string name is falsy under the `!cameraName` check and is
rejected with 400 before the remote call. -/
theorem mutation_no_list_validation (oracle : SetCall → Except String Unit)
    (name : String) (hname : name ≠ "") (_hout : name ∉ cameraSources)
    (d : JSValue) (hd : d ≠ JSValue.undef) :
    (postApiCameras oracle ⟨.str name, d⟩).2 = [⟨.str name, FILTER_NAME, toNumber d⟩]
    ∧ (∀ msg, (postApiCameras oracle ⟨.str name, d⟩).1 ≠ .badRequest msg)
    ∧ (postUpdateDelay oracle ⟨.str name, d⟩).2 = [⟨.str name, FILTER_NAME, toNumber d⟩] := by
  have hcond := present_str_cond name hname d hd
  exact ⟨postApi_call_list oracle ⟨.str name, d⟩ hcond,
    fun msg => postApi_no_badRequest oracle ⟨.str name, d⟩ hcond msg,
    postUpdate_call_list oracle ⟨.str name, d⟩ hcond⟩

/-- Claim C5 witness: the name `"ghost"`, outside the configured list, is
forwarded unmodified on both routes. -/
theorem mutation_no_list_validation_witness :
    ((postApiCameras (fun _ => .ok ()) ⟨.str "ghost", JSValue.num 4⟩).2
        = [⟨.str "ghost", FILTER_NAME, toNumber (JSValue.num 4)⟩]
    ∧ (∀ msg, (postApiCameras (fun _ => .ok ()) ⟨.str "ghost", JSValue.num 4⟩).1
        ≠ .badRequest msg)
    ∧ (postUpdateDelay (fun _ => .ok ()) ⟨.str "ghost", JSValue.num 4⟩).2
        = [⟨.str "ghost", FILTER_NAME, toNumber (JSValue.num 4)⟩]) :=
  mutation_no_list_validation (fun _ => .ok ()) "ghost" (by decide) (by decide)
    (JSValue.num 4) (by decide)

/-! ## Claim C10 -/

/-- Claim C10: the presence check on the delay field tests only for
`undefined` on both mutation routes: a delay that is present but `null`,
boolean or a non-numeric string passes validation, the forwarded value is its
`Number(...)` coercion — `null` is written as 0, `true` as 1, `false` as 0,
a non-numeric string as NaN — while the 200 response echoes the original,
uncoerced request value. -/
theorem delay_check_only_undefined (oracle : SetCall → Except String Unit)
    (name : String) (hname : name ≠ "") (d : JSValue) (hd : d ≠ JSValue.undef) :
    (postApiCameras oracle ⟨.str name, d⟩).2 = [⟨.str name, FILTER_NAME, toNumber d⟩]
    ∧ (postUpdateDelay oracle ⟨.str name, d⟩).2 = [⟨.str name, FILTER_NAME, toNumber d⟩]
    ∧ toNumber JSValue.null = .val 0
    ∧ toNumber (JSValue.str "abc") = .nan
    ∧ toNumber (JSValue.bool true) = .val 1
    ∧ toNumber (JSValue.bool false) = .val 0
    ∧ (∀ u : Unit, oracle ⟨.str name, FILTER_NAME, toNumber d⟩ = .ok u →
        (postApiCameras oracle ⟨.str name, d⟩).1 = .ok (.str name) d) := by
  have hcond := present_str_cond name hname d hd
  exact ⟨postApi_call_list oracle ⟨.str name, d⟩ hcond,
    postUpdate_call_list oracle ⟨.str name, d⟩ hcond,
    rfl, by decide, rfl, rfl,
    fun u hu => postApi_ok_echo oracle ⟨.str name, d⟩ hcond u hu⟩

/-- Claim C10 witness: a `null` delay passes validation, is written as 0, and
is echoed back as `null`. -/
theorem delay_check_only_undefined_witness :
    ((postApiCameras (fun _ => .ok ()) ⟨.str "01 input", JSValue.null⟩).2
        = [⟨.str "01 input", FILTER_NAME, toNumber JSValue.null⟩]
    ∧ (postUpdateDelay (fun _ => .ok ()) ⟨.str "01 input", JSValue.null⟩).2
        = [⟨.str "01 input", FILTER_NAME, toNumber JSValue.null⟩]
    ∧ toNumber JSValue.null = .val 0
    ∧ toNumber (JSValue.str "abc") = .nan
    ∧ toNumber (JSValue.bool true) = .val 1
    ∧ toNumber (JSValue.bool false) = .val 0
    ∧ (∀ u : Unit, (fun _ => (.ok () : Except String Unit))
          (⟨.str "01 input", FILTER_NAME, toNumber JSValue.null⟩ : SetCall) = .ok u →
        (postApiCameras (fun _ => .ok ()) ⟨.str "01 input", JSValue.null⟩).1
          = .ok (.str "01 input") JSValue.null)) :=
  delay_check_only_undefined (fun _ => .ok ()) "01 input" (by decide)
    JSValue.null (by decide)
